import Mathlib

/-!
Shallow embedding of the Vortex Node SDK client (`src/vortex.ts`, with types
from `src/types.ts`) and proofs about its token-signing routine, its accept
shims and its shared request helper.

Conventions of the embedding:
* JavaScript objects whose key order matters for `JSON.stringify` are
  association lists `List (String × Json)` in insertion order;
  `Object.assign` is `objAssign` (an existing key keeps its position, a new
  key is appended).
* `Buffer`s are `List Nat` of byte values; strings are converted with
  `utf8Bytes` (the UTF-8 encoding `Buffer.from(string)` performs).
* The two HMAC-SHA256 invocations of `node:crypto` are an external primitive:
  functions are parameterised over `hmac : List Nat → List Nat → List Nat`
  (key bytes → message bytes → digest bytes).  Every structural claim below
  holds for all values of that parameter.
* `JSON.parse` is likewise an external primitive `parse : String → Option
  Json` (`none` models a parse exception).
* The clock is a parameter `now : Nat` (unix seconds), read once per call —
  the claims always fix or step the clock.
* Thrown `Error`s are `Except VortexError`; the constructor names follow the
  spec's error kinds, each corresponding to one `throw new Error(...)` site.
-/

namespace Vortex

/-- JSON values, as produced by the SDK and serialised by `JSON.stringify`.
Objects are ordered association lists, matching JavaScript key order. -/
inductive Json where
  | null
  | str (s : String)
  | num (n : Int)
  | bool (b : Bool)
  | arr (xs : List Json)
  | obj (kvs : List (String × Json))

/-- Escaping `JSON.stringify` applies inside a string literal (quote and
backslash; the SDK never emits control characters in its own fields). -/
def escapeStr (s : String) : String :=
  ⟨(s.data.map fun c => if c = '"' ∨ c = '\\' then ['\\', c] else [c]).flatten⟩

/-- Join pre-rendered pieces with commas, as `JSON.stringify` does. -/
def joinComma : List String → String
  | [] => ""
  | [x] => x
  | x :: y :: xs => x ++ "," ++ joinComma (y :: xs)

mutual

/-- Model of `JSON.stringify`: no whitespace, object keys in insertion
order. -/
def Json.stringify : Json → String
  | .null => "null"
  | .str s => "\"" ++ escapeStr s ++ "\""
  | .num n => toString n
  | .bool b => if b then "true" else "false"
  | .arr xs => "[" ++ joinComma (stringifyList xs) ++ "]"
  | .obj kvs => "\x7b" ++ joinComma (stringifyPairs kvs) ++ "\x7d"

def stringifyList : List Json → List String
  | [] => []
  | x :: xs => Json.stringify x :: stringifyList xs

def stringifyPairs : List (String × Json) → List String
  | [] => []
  | (k, v) :: kvs => ("\"" ++ escapeStr k ++ "\":" ++ Json.stringify v) :: stringifyPairs kvs

end

/-- UTF-8 encoding of one code point (what `Buffer.from(string)` does per
character). -/
def utf8CharBytes (n : Nat) : List Nat :=
  if n < 0x80 then [n]
  else if n < 0x800 then [0xC0 + n / 64, 0x80 + n % 64]
  else if n < 0x10000 then [0xE0 + n / 4096, 0x80 + n / 64 % 64, 0x80 + n % 64]
  else [0xF0 + n / 262144, 0x80 + n / 4096 % 64, 0x80 + n / 64 % 64, 0x80 + n % 64]

/-- UTF-8 bytes of a string (`Buffer.from(s)`). -/
def utf8Bytes (s : String) : List Nat :=
  (s.data.map fun c => utf8CharBytes c.toNat).flatten

/-- The base64url alphabet used by `Buffer.toString('base64url')`. -/
def b64Alphabet : List Char :=
  "ABCDEFGHIJKLMNOPQRSTUVWXYZabcdefghijklmnopqrstuvwxyz0123456789-_".data

/-- Character for a 6-bit group. -/
def alphaChar (n : Nat) : Char := b64Alphabet.getD n 'A'

/-- Characters of the base64url rendering of a byte list, without padding
(`Buffer.toString('base64url')` emits none). -/
def b64Chars : List Nat → List Char
  | [] => []
  | [b1] => [alphaChar (b1 / 4), alphaChar (b1 % 4 * 16)]
  | [b1, b2] =>
    [alphaChar (b1 / 4), alphaChar (b1 % 4 * 16 + b2 / 16), alphaChar (b2 % 16 * 4)]
  | b1 :: b2 :: b3 :: rest =>
    alphaChar (b1 / 4) :: alphaChar (b1 % 4 * 16 + b2 / 16) ::
      alphaChar (b2 % 16 * 4 + b3 / 64) :: alphaChar (b3 % 64) :: b64Chars rest

/-- Base64url encoding without padding. -/
def base64url (bs : List Nat) : String := ⟨b64Chars bs⟩

/-- Value of one base64url character; `none` for a character outside the
alphabet (Node's decoder skips those). -/
def b64Val (c : Char) : Option Nat :=
  let n := c.toNat
  if 65 ≤ n ∧ n ≤ 90 then some (n - 65)
  else if 97 ≤ n ∧ n ≤ 122 then some (n - 97 + 26)
  else if 48 ≤ n ∧ n ≤ 57 then some (n - 48 + 52)
  else if n = 45 then some 62
  else if n = 95 then some 63
  else none

/-- Bytes from a list of 6-bit values; a trailing group of fewer than two
values contributes nothing, as in Node's decoder. -/
def b64DecodeVals : List Nat → List Nat
  | [v1, v2] => [v1 * 4 + v2 / 16]
  | [v1, v2, v3] => [v1 * 4 + v2 / 16, v2 % 16 * 16 + v3 / 4]
  | v1 :: v2 :: v3 :: v4 :: rest =>
    (v1 * 4 + v2 / 16) :: (v2 % 16 * 16 + v3 / 4) :: (v3 % 4 * 64 + v4) :: b64DecodeVals rest
  | _ => []

/-- Model of `Buffer.from(s, 'base64url')`. -/
def b64Decode (s : String) : List Nat :=
  b64DecodeVals (s.data.filterMap b64Val)

/-- Lower-case hex digit. -/
def hexChar (n : Nat) : Char := "0123456789abcdef".data.getD n '0'

/-- Two hex digits of a byte, as the `uuid` package's `byteToHex` table. -/
def byteHex (b : Nat) : List Char := [hexChar (b / 16 % 16), hexChar (b % 16)]

/-- Validation the `uuid` package's `stringify` applies to its output: the
canonical text must match the UUID regex, which accepts version 1-8 with
variant 8/9/a/b, the nil UUID and the max UUID.  Expressed here on the 16
bytes that produce that text. -/
def uuidValidBytes (bs : List Nat) : Bool :=
  bs.length ≥ 16 &&
    ((1 ≤ (bs.getD 6 0) / 16 && (bs.getD 6 0) / 16 ≤ 8 &&
        8 ≤ (bs.getD 8 0) / 16 && (bs.getD 8 0) / 16 ≤ 11) ||
      (bs.take 16).all (· = 0) || (bs.take 16).all (· = 255))

/-- Canonical UUID text of the first 16 bytes (`uuid`'s `unsafeStringify`
layout: 4-2-2-2-6 byte groups joined by dashes). -/
def uuidStringifyBytes (bs : List Nat) : String :=
  let b := fun i => byteHex (bs.getD i 0)
  ⟨b 0 ++ b 1 ++ b 2 ++ b 3 ++ '-' :: (b 4 ++ b 5 ++ '-' :: (b 6 ++ b 7 ++ '-' ::
    (b 8 ++ b 9 ++ '-' :: (b 10 ++ b 11 ++ b 12 ++ b 13 ++ b 14 ++ b 15))))⟩

/-- Accumulator pass for `splitDots`. -/
def splitDotsAux : List Char → List Char → List String
  | [], acc => [⟨acc.reverse⟩]
  | c :: cs, acc =>
    if c = '.' then (⟨acc.reverse⟩ : String) :: splitDotsAux cs []
    else splitDotsAux cs (c :: acc)

/-- JavaScript `s.split('.')`: the (possibly empty) pieces between dots. -/
def splitDots (s : String) : List String := splitDotsAux s.data []

/-- Error kinds of the SDK (§7 of the spec); each constructor stands for one
`throw new Error(...)` site in `src/vortex.ts`. -/
inductive VortexError where
  | InvalidKeyFormat
  | InvalidKeyPrefix
  | InvalidUuid
  | UnsupportedTargetType (t : String)
  | MissingIdentity
  | NoTargetsProvided
  | ApiRequestFailed (status : Nat) (statusText : String) (body : String)
deriving DecidableEq

/-- The `User` type of `src/types.ts` for JWT generation.  Optional fields
are `Option`; JavaScript truthiness makes `some ""` behave like an absent
string, which the definitions below reproduce. -/
structure User where
  id : String
  email : String
  userName : Option String := none
  userAvatarUrl : Option String := none
  adminScopes : Option (List String) := none
  allowedEmailDomains : Option (List String) := none

/-- Set a key in an ordered object: an existing key keeps its position, a new
key is appended — JavaScript property-assignment semantics. -/
def setKey : List (String × Json) → String → Json → List (String × Json)
  | [], k, v => [(k, v)]
  | (k', v') :: rest, k, v =>
    if k' = k then (k, v) :: rest else (k', v') :: setKey rest k v

/-- `Object.assign(base, updates)`: apply the updates left to right. -/
def objAssign (base : List (String × Json)) : List (String × Json) → List (String × Json)
  | [] => base
  | (k, v) :: rest => objAssign (setKey base k v) rest

/-- The token header of `generateJwt` (`src/vortex.ts` lines 55-60). -/
def jwtHeader (now : Nat) (id : String) : List (String × Json) :=
  [("iat", .num now), ("alg", .str "HS256"), ("typ", .str "JWT"), ("kid", .str id)]

/-- The token payload before the extra-claims merge (`src/vortex.ts` lines
62-94): seed object, then the conditional fields in source order.  Each
JavaScript truthiness test (`user.email ? ...`, `if (user.userName)`, ...)
appears as the corresponding emptiness test. -/
def payloadBase (user : User) (expires : Nat) : List (String × Json) :=
  [("userId", .str user.id), ("userEmail", .str user.email), ("expires", .num expires),
    ("identifiers", .arr (if user.email ≠ "" then
      [.obj [("type", .str "email"), ("value", .str user.email)]] else []))]
  ++ (match user.userName with
      | some n => if n ≠ "" then [("userName", Json.str n)] else []
      | none => [])
  ++ (match user.userAvatarUrl with
      | some a => if a ≠ "" then [("userAvatarUrl", Json.str a)] else []
      | none => [])
  ++ (match user.adminScopes with
      | some scopes =>
        ("adminScopes", Json.arr (scopes.map Json.str)) ::
          (if scopes.contains "autojoin" then
            [("userIsAutojoinAdmin", Json.bool true), ("role", Json.str "admin")] else [])
      | none => [])
  ++ (match user.allowedEmailDomains with
      | some ds =>
        if ds.length > 0 then [("allowedEmailDomains", Json.arr (ds.map Json.str))] else []
      | none => [])

/-- The full token payload: seed plus conditionals, then the caller's extra
claims merged by `Object.assign` (`src/vortex.ts` lines 96-99; caller claims
win on collision). -/
def jwtPayload (user : User) (rest : List (String × Json)) (expires : Nat) :
    List (String × Json) :=
  objAssign (payloadBase user expires) rest

/-- `generateJwt` (`src/vortex.ts` lines 38-112).  `hmac` stands for
HMAC-SHA256 of `node:crypto`; `now` for `Math.floor(Date.now() / 1000)`.
The key is split on `.` and the first three parts destructured — parts
beyond the third are ignored, and a missing part equals the empty string
for every use the routine makes of it (falsiness and the literal
comparison). -/
def generateJwt (hmac : List Nat → List Nat → List Nat) (apiKey : String) (user : User)
    (rest : List (String × Json)) (now : Nat) : Except VortexError String :=
  let parts := splitDots apiKey
  let pfx := parts.getD 0 ""
  let encodedId := parts.getD 1 ""
  let key := parts.getD 2 ""
  if pfx = "" ∨ encodedId = "" ∨ key = "" then .error .InvalidKeyFormat
  else if pfx ≠ "VRTX" then .error .InvalidKeyPrefix
  else
    let idBytes := b64Decode encodedId
    if uuidValidBytes idBytes then
      let id := uuidStringifyBytes idBytes
      let expires := now + 3600
      let signingKey := hmac (utf8Bytes key) (utf8Bytes id)
      let headerB64 := base64url (utf8Bytes (Json.stringify (.obj (jwtHeader now id))))
      let payloadB64 :=
        base64url (utf8Bytes (Json.stringify (.obj (jwtPayload user rest expires))))
      let toSign := headerB64 ++ "." ++ payloadB64
      let signature := base64url (hmac signingKey (utf8Bytes toSign))
      .ok (toSign ++ "." ++ signature)
    else .error .InvalidUuid

/-- Strings with no dot: such a string is one whole segment of a
dot-separated token. -/
abbrev dotFree (s : String) : Prop := ∀ c ∈ s.data, c ≠ '.'

/-- Getting from a dot-free list with a dot-free default stays dot-free. -/
theorem getD_ne_dot : ∀ (l : List Char) (n : Nat) (d : Char),
    (∀ c ∈ l, c ≠ '.') → d ≠ '.' → l.getD n d ≠ '.'
  | [], n, d, _, hd => by simpa [List.getD] using hd
  | c :: l, 0, d, hl, _ => by simpa using hl c (by simp)
  | _ :: l, n + 1, d, hl, hd => by
    simpa [List.getD] using getD_ne_dot l n d (fun x hx => hl x (by simp [hx])) hd

/-- No base64url character is a dot. -/
theorem alphaChar_ne_dot (n : Nat) : alphaChar n ≠ '.' :=
  getD_ne_dot b64Alphabet n 'A' (by decide) (by decide)

/-- No character of a base64url rendering is a dot. -/
theorem b64Chars_ne_dot : ∀ (bs : List Nat), ∀ c ∈ b64Chars bs, c ≠ '.'
  | [] => by simp [b64Chars]
  | [b1] => by
    simp only [b64Chars, List.mem_cons, List.not_mem_nil, or_false]
    rintro c (rfl | rfl) <;> exact alphaChar_ne_dot _
  | [b1, b2] => by
    simp only [b64Chars, List.mem_cons, List.not_mem_nil, or_false]
    rintro c (rfl | rfl | rfl) <;> exact alphaChar_ne_dot _
  | b1 :: b2 :: b3 :: rest => by
    simp only [b64Chars, List.mem_cons]
    rintro c (rfl | rfl | rfl | rfl | hc)
    · exact alphaChar_ne_dot _
    · exact alphaChar_ne_dot _
    · exact alphaChar_ne_dot _
    · exact alphaChar_ne_dot _
    · exact b64Chars_ne_dot rest c hc

/-- A base64url string is dot-free. -/
theorem base64url_dotFree (bs : List Nat) : dotFree (base64url bs) :=
  fun c hc => b64Chars_ne_dot bs c hc

/-! Concrete data of the spec's example scenario (§8): the all-zero key id,
the subject `{id:"u1", email:"u1@x.com"}`, the clock frozen at 1000. -/

/-- Subject of the example scenario. -/
def c1User : User := { id := "u1", email := "u1@x.com" }

/-- The header object the claim expects the first segment to decode to. -/
def c1HeaderJson : Json :=
  .obj [("iat", .num 1000), ("alg", .str "HS256"), ("typ", .str "JWT"),
    ("kid", .str "00000000-0000-0000-0000-000000000000")]

/-- The payload object the claim expects the second segment to decode to. -/
def c1PayloadJson : Json :=
  .obj [("userId", .str "u1"), ("userEmail", .str "u1@x.com"), ("expires", .num 4600),
    ("identifiers", .arr [.obj [("type", .str "email"), ("value", .str "u1@x.com")]])]

/-- First segment of the example token. -/
def c1HeaderB64 : String := base64url (utf8Bytes (Json.stringify c1HeaderJson))

/-- Second segment of the example token. -/
def c1PayloadB64 : String := base64url (utf8Bytes (Json.stringify c1PayloadJson))

/-- Third segment of the example token, as a function of the HMAC
primitive: the signature over the first two segments with the key derived
from the secret and the key id. -/
def c1Sig (hmac : List Nat → List Nat → List Nat) : String :=
  base64url (hmac
    (hmac (utf8Bytes "secret") (utf8Bytes "00000000-0000-0000-0000-000000000000"))
    (utf8Bytes (c1HeaderB64 ++ "." ++ c1PayloadB64)))

set_option maxRecDepth 16000 in
/-- C1: on the key `VRTX.<base64url of 16 zero bytes>.secret`, the subject
`{id:"u1", email:"u1@x.com"}`, no extra claims and the clock frozen at unix
time 1000, `generateJwt` returns a three-segment token whose second segment
base64url-decodes to the JSON object `{userId:"u1", userEmail:"u1@x.com",
expires:4600, identifiers:[{type:"email",value:"u1@x.com"}]}` and whose
first segment decodes to the header `{iat:1000, alg:"HS256", typ:"JWT",
kid:"00000000-0000-0000-0000-000000000000"}` — for every HMAC primitive,
since the first two segments do not depend on it.  The three segments are
genuinely the dot-separated parts: each is dot-free. -/
theorem c1_example_token (hmac : List Nat → List Nat → List Nat) :
    generateJwt hmac "VRTX.AAAAAAAAAAAAAAAAAAAAAA.secret" c1User [] 1000 =
      .ok (c1HeaderB64 ++ "." ++ c1PayloadB64 ++ "." ++ c1Sig hmac) ∧
    b64Decode c1HeaderB64 = utf8Bytes (Json.stringify c1HeaderJson) ∧
    b64Decode c1PayloadB64 = utf8Bytes (Json.stringify c1PayloadJson) ∧
    dotFree c1HeaderB64 ∧ dotFree c1PayloadB64 ∧ dotFree (c1Sig hmac) :=
  ⟨rfl, by decide, by decide, by decide, by decide, base64url_dotFree _⟩

/-- Whether an `Except` result is a success. -/
def isOkE {ε α : Type} : Except ε α → Bool
  | .ok _ => true
  | .error _ => false

/-- C2, counterexample: the claim says a key with 4 dot-separated parts
fails with `InvalidKeyFormat`; in fact `generateJwt` destructures only the
first three parts of the split, so the 4-part key
`VRTX.AAAAAAAAAAAAAAAAAAAAAA.s.t` succeeds. -/
theorem c2_four_part_key_succeeds :
    isOkE (generateJwt (fun _ _ => []) "VRTX.AAAAAAAAAAAAAAAAAAAAAA.s.t" c1User [] 1000)
      = true := rfl

/-- C2 as amended: a key whose split on `.` has no first, second or third
part (missing or empty) fails with `InvalidKeyFormat`; a key whose first
three parts are non-empty but whose first part is not `VRTX` fails with
`InvalidKeyPrefix`.  Both failures hold for every HMAC primitive — no
cryptographic operation is involved.  (A 2-part key falls under the first
case; a 4-part key falls under neither: parts beyond the third are
ignored, see the counterexample.) -/
theorem c2_key_validation (hmac : List Nat → List Nat → List Nat) (apiKey : String)
    (user : User) (rest : List (String × Json)) (now : Nat) :
    ((splitDots apiKey).getD 0 "" = "" ∨ (splitDots apiKey).getD 1 "" = "" ∨
        (splitDots apiKey).getD 2 "" = "" →
      generateJwt hmac apiKey user rest now = .error .InvalidKeyFormat) ∧
    (¬ ((splitDots apiKey).getD 0 "" = "" ∨ (splitDots apiKey).getD 1 "" = "" ∨
        (splitDots apiKey).getD 2 "" = "") →
      (splitDots apiKey).getD 0 "" ≠ "VRTX" →
      generateJwt hmac apiKey user rest now = .error .InvalidKeyPrefix) := by
  constructor
  · intro h
    simp only [generateJwt]
    rw [if_pos h]
  · intro h1 h2
    simp only [generateJwt]
    rw [if_neg h1, if_pos h2]

/-- Closed corollary of `c2_key_validation`: a 2-part key fails with
`InvalidKeyFormat`, and a well-formed key with a wrong literal first part
fails with `InvalidKeyPrefix`. -/
theorem c2_key_validation_witness :
    generateJwt (fun _ _ => []) "VRTX.AAAAAAAAAAAAAAAAAAAAAA" c1User [] 1000 =
      .error .InvalidKeyFormat ∧
    generateJwt (fun _ _ => []) "XRTX.AAAAAAAAAAAAAAAAAAAAAA.secret" c1User [] 1000 =
      .error .InvalidKeyPrefix :=
  ⟨(c2_key_validation (fun _ _ => []) "VRTX.AAAAAAAAAAAAAAAAAAAAAA" c1User [] 1000).1
      (by decide),
    (c2_key_validation (fun _ _ => []) "XRTX.AAAAAAAAAAAAAAAAAAAAAA.secret" c1User [] 1000).2
      (by decide) (by decide)⟩

/-! Lemmas about ordered-object assignment, used for the extra-claims merge
(C7) and the clock-step comparison (C8). -/

/-- Looking up the key just set yields the new value. -/
theorem lookup_setKey_self (k : String) (v : Json) :
    ∀ l : List (String × Json), List.lookup k (setKey l k v) = some v
  | [] => by simp [setKey]
  | (k', v') :: rest => by
    rcases eq_or_ne k' k with h | h
    · simp [setKey, h]
    · have hb : (k == k') = false := by simp [Ne.symm h]
      simp only [setKey, if_neg h, List.lookup, hb]
      exact lookup_setKey_self k v rest

/-- Setting a different key does not change a lookup. -/
theorem lookup_setKey_other (k k0 : String) (v : Json) (h : k ≠ k0) :
    ∀ l : List (String × Json), List.lookup k (setKey l k0 v) = List.lookup k l
  | [] => by
    have hb : (k == k0) = false := by simp [h]
    simp [setKey, List.lookup, hb]
  | (k', v') :: rest => by
    rcases eq_or_ne k' k0 with h' | h'
    · subst h'
      have hb : (k == k') = false := by simp [h]
      simp [setKey, List.lookup, hb]
    · simp only [setKey, if_neg h', List.lookup]
      rcases eq_or_ne k k' with h'' | h''
      · subst h''
        simp
      · have hb : (k == k') = false := by simp [h'']
        simp only [hb]
        exact lookup_setKey_other k k0 v h rest

/-- Assigning keys other than `k` does not change the lookup of `k`. -/
theorem lookup_objAssign_not_mem (k : String) :
    ∀ (ups : List (String × Json)) (l : List (String × Json)),
      k ∉ ups.map Prod.fst → List.lookup k (objAssign l ups) = List.lookup k l
  | [], _, _ => rfl
  | (k0, v0) :: ups, l, h => by
    simp only [List.map_cons, List.mem_cons, not_or] at h
    rw [objAssign, lookup_objAssign_not_mem k ups _ h.2, lookup_setKey_other k k0 v0 h.1]

/-- With duplicate-free update keys (JavaScript object literals have them),
the assigned value is what a later lookup sees: caller claims win. -/
theorem lookup_objAssign_mem (k : String) (v : Json) :
    ∀ (ups : List (String × Json)) (l : List (String × Json)),
      (ups.map Prod.fst).Nodup → (k, v) ∈ ups →
      List.lookup k (objAssign l ups) = some v
  | (k0, v0) :: ups, l, hnd, hm => by
    simp only [List.map_cons, List.nodup_cons] at hnd
    rcases List.mem_cons.mp hm with hm | hm
    · rw [Prod.mk.injEq] at hm
      obtain ⟨rfl, rfl⟩ := hm
      rw [objAssign, lookup_objAssign_not_mem k ups _ hnd.1, lookup_setKey_self]
    · rw [objAssign]
      exact lookup_objAssign_mem k v ups _ hnd.2 hm

/-- Two ordered objects with the same keys in the same order whose values
agree everywhere except possibly at key `x`. -/
def AgreeExcept (x : String) (l1 l2 : List (String × Json)) : Prop :=
  List.Forall₂ (fun p q => p.1 = q.1 ∧ (p.1 ≠ x → p.2 = q.2)) l1 l2

/-- Agreement-except is reflexive. -/
theorem agreeExcept_refl (x : String) : ∀ l, AgreeExcept x l l
  | [] => .nil
  | _ :: l => .cons ⟨rfl, fun _ => rfl⟩ (agreeExcept_refl x l)

/-- Agreement-except respects append. -/
theorem agreeExcept_append {x : String} {a b c d : List (String × Json)}
    (h1 : AgreeExcept x a b) (h2 : AgreeExcept x c d) :
    AgreeExcept x (a ++ c) (b ++ d) := by
  induction h1 with
  | nil => exact h2
  | cons hpq _ ih => exact .cons hpq ih

/-- Lookups at a key other than the excepted one coincide. -/
theorem agreeExcept_lookup {x : String} {l1 l2 : List (String × Json)} (k : String)
    (hk : k ≠ x) (h : AgreeExcept x l1 l2) : List.lookup k l1 = List.lookup k l2 := by
  induction h with
  | nil => rfl
  | @cons p q l1' l2' hpq htail ih =>
    obtain ⟨h1, h2⟩ := hpq
    obtain ⟨pk, pv⟩ := p
    obtain ⟨qk, qv⟩ := q
    simp only at h1 h2
    subst h1
    by_cases hkp : k = pk
    · subst hkp
      have hv : pv = qv := h2 hk
      simp [List.lookup, hv]
    · have hb : (k == pk) = false := by simp [hkp]
      simp only [List.lookup, hb]
      exact ih

/-- Setting the same key on both sides preserves agreement-except. -/
theorem agreeExcept_setKey {x : String} (k : String) (v : Json) :
    ∀ {l1 l2 : List (String × Json)}, AgreeExcept x l1 l2 →
      AgreeExcept x (setKey l1 k v) (setKey l2 k v) := by
  intro l1 l2 h
  induction h with
  | nil => exact .cons ⟨rfl, fun _ => rfl⟩ .nil
  | @cons p q l1' l2' hpq htail ih =>
    obtain ⟨pk, pv⟩ := p
    obtain ⟨qk, qv⟩ := q
    obtain ⟨h1, h2⟩ := hpq
    simp only at h1 h2
    subst h1
    by_cases hkp : pk = k
    · subst hkp
      simp only [setKey, if_pos rfl]
      exact .cons ⟨rfl, fun _ => rfl⟩ htail
    · simp only [setKey, if_neg hkp]
      exact .cons ⟨rfl, h2⟩ ih

/-- Assigning the same updates on both sides preserves agreement-except. -/
theorem agreeExcept_objAssign {x : String} :
    ∀ (ups : List (String × Json)) {l1 l2 : List (String × Json)},
      AgreeExcept x l1 l2 → AgreeExcept x (objAssign l1 ups) (objAssign l2 ups)
  | [], _, _, h => h
  | (k, v) :: ups, _, _, h => agreeExcept_objAssign ups (agreeExcept_setKey k v h)

/-- Two payload seeds that differ only in the clock differ only at the
`expires` key: same keys, same order, same values elsewhere. -/
theorem payloadBase_agree (u : User) (e1 e2 : Nat) :
    AgreeExcept "expires" (payloadBase u e1) (payloadBase u e2) := by
  unfold payloadBase
  refine agreeExcept_append (agreeExcept_append (agreeExcept_append
    (agreeExcept_append ?_ (agreeExcept_refl _ _)) (agreeExcept_refl _ _))
    (agreeExcept_refl _ _)) (agreeExcept_refl _ _)
  exact .cons ⟨rfl, fun _ => rfl⟩ (.cons ⟨rfl, fun _ => rfl⟩
    (.cons ⟨rfl, fun h => absurd rfl h⟩ (.cons ⟨rfl, fun _ => rfl⟩ .nil)))

/-- Full payloads that differ only in the clock differ only at `expires`,
whatever the merged extra claims. -/
theorem jwtPayload_agree (u : User) (rest : List (String × Json)) (e1 e2 : Nat) :
    AgreeExcept "expires" (jwtPayload u rest e1) (jwtPayload u rest e2) :=
  agreeExcept_objAssign rest (payloadBase_agree u e1 e2)

/-- The `expires` entry of the payload seed carries the expiry time. -/
theorem lookup_payloadBase_expires (u : User) (e : Nat) :
    List.lookup "expires" (payloadBase u e) = some (.num e) := by
  simp [payloadBase, List.lookup]

/-- Text up to the first dot: the first segment of a dot-joined token. -/
def headSeg (s : String) : String := ⟨s.data.takeWhile (fun c => c != '.')⟩

/-- A prefix wholly satisfying the predicate passes through `takeWhile`. -/
theorem takeWhile_append_of_all {p : Char → Bool} :
    ∀ (l1 l2 : List Char), (∀ c ∈ l1, p c = true) →
      List.takeWhile p (l1 ++ l2) = l1 ++ List.takeWhile p l2
  | [], _, _ => rfl
  | c :: l1, l2, h => by
    have hc : p c = true := h c (by simp)
    simp only [List.cons_append, List.takeWhile_cons, hc, if_true]
    rw [takeWhile_append_of_all l1 l2 fun x hx => h x (by simp [hx])]

/-- The first segment of a three-segment token with a dot-free head is that
head. -/
theorem headSeg_token (a b c : String) (h : dotFree a) :
    headSeg (a ++ "." ++ b ++ "." ++ c) = a := by
  unfold headSeg
  have hd : (a ++ "." ++ b ++ "." ++ c).data = a.data ++ '.' :: (b.data ++ '.' :: c.data) := by
    simp [String.data_append]
  rw [hd, takeWhile_append_of_all _ _ fun x hx => by simpa using h x hx]
  simp [List.takeWhile]

/-- C7: the extra-claims merge overwrites payload fields — for any key the
caller supplies (`expires` included) the caller's value is the one the
serialised payload carries — while the token header is beyond its reach:
tokens generated from the same inputs with different extra claims have
identical first (header) segments, and the error behaviour is also
unchanged. -/
theorem c7_extra_claims_merge (u : User) :
    (∀ (e : Nat) (rest : List (String × Json)) (k : String) (v : Json),
        (rest.map Prod.fst).Nodup → (k, v) ∈ rest →
        List.lookup k (jwtPayload u rest e) = some v) ∧
    (∀ (hmac : List Nat → List Nat → List Nat) (apiKey : String)
        (r1 r2 : List (String × Json)) (now : Nat),
        (generateJwt hmac apiKey u r1 now).map headSeg =
          (generateJwt hmac apiKey u r2 now).map headSeg) := by
  constructor
  · intro e rest k v hnd hm
    exact lookup_objAssign_mem k v rest _ hnd hm
  · intro hmac apiKey r1 r2 now
    simp only [generateJwt]
    split
    · rfl
    split
    · rfl
    split
    · simp only [Except.map]
      rw [headSeg_token _ _ _ (base64url_dotFree _), headSeg_token _ _ _ (base64url_dotFree _)]
    · rfl

/-- Closed corollary of `c7_extra_claims_merge`: a caller-supplied
`expires` claim replaces the derived one, and a caller-supplied extra claim
leaves the header segment of the example token unchanged. -/
theorem c7_extra_claims_merge_witness :
    List.lookup "expires" (jwtPayload c1User [("expires", Json.num 0)] 4600) =
      some (.num 0) ∧
    (generateJwt (fun _ _ => []) "VRTX.AAAAAAAAAAAAAAAAAAAAAA.secret" c1User
        [("expires", Json.num 0)] 1000).map headSeg =
      (generateJwt (fun _ _ => []) "VRTX.AAAAAAAAAAAAAAAAAAAAAA.secret" c1User [] 1000).map
        headSeg :=
  ⟨(c7_extra_claims_merge c1User).1 4600 _ "expires" (Json.num 0) (by simp) (by simp),
    (c7_extra_claims_merge c1User).2 (fun _ _ => []) _ _ _ 1000⟩

/-- C8: token generation is deterministic in its inputs — two calls with
the same key, subject, extra claims and clock second produce the same
token string — and a one-second clock step changes only the time fields:
the headers at `t` and `t + 1` are equal once `iat` is equalised, the
payloads agree at every key other than `expires`, and (absent a caller
override) `expires` tracks the clock as `t + 3600`. -/
theorem c8_determinism_and_clock_step (hmac : List Nat → List Nat → List Nat)
    (apiKey : String) (u : User) (rest : List (String × Json)) (t : Nat) :
    (∀ t2, t2 = t →
        generateJwt hmac apiKey u rest t2 = generateJwt hmac apiKey u rest t) ∧
    (∀ id, setKey (jwtHeader (t + 1) id) "iat" (.num t) = jwtHeader t id) ∧
    (∀ k, k ≠ "expires" →
        List.lookup k (jwtPayload u rest (t + 1 + 3600)) =
          List.lookup k (jwtPayload u rest (t + 3600))) ∧
    ("expires" ∉ rest.map Prod.fst →
        List.lookup "expires" (jwtPayload u rest (t + 3600)) = some (.num (t + 3600))) := by
  refine ⟨fun t2 ht => by rw [ht], fun id => rfl, fun k hk => ?_, fun hmem => ?_⟩
  · exact agreeExcept_lookup k hk (jwtPayload_agree u rest _ _)
  · rw [jwtPayload, lookup_objAssign_not_mem _ rest _ hmem, lookup_payloadBase_expires]
    norm_cast

/-- Closed corollary of `c8_determinism_and_clock_step` at the example
scenario's inputs and clock 1000. -/
theorem c8_determinism_witness :
    generateJwt (fun _ _ => []) "VRTX.AAAAAAAAAAAAAAAAAAAAAA.secret" c1User [] 1000 =
      generateJwt (fun _ _ => []) "VRTX.AAAAAAAAAAAAAAAAAAAAAA.secret" c1User [] 1000 ∧
    setKey (jwtHeader 1001 "00000000-0000-0000-0000-000000000000") "iat" (.num 1000) =
      jwtHeader 1000 "00000000-0000-0000-0000-000000000000" ∧
    List.lookup "userId" (jwtPayload c1User [] 4601) =
      List.lookup "userId" (jwtPayload c1User [] 4600) ∧
    List.lookup "expires" (jwtPayload c1User [] 4600) = some (.num 4600) :=
  ⟨(c8_determinism_and_clock_step (fun _ _ => []) _ c1User [] 1000).1 1000 rfl,
    (c8_determinism_and_clock_step (fun _ _ => []) "VRTX.AAAAAAAAAAAAAAAAAAAAAA.secret"
      c1User [] 1000).2.1 _,
    (c8_determinism_and_clock_step (fun _ _ => []) "VRTX.AAAAAAAAAAAAAAAAAAAAAA.secret"
      c1User [] 1000).2.2.1 "userId" (by decide),
    (c8_determinism_and_clock_step (fun _ _ => []) "VRTX.AAAAAAAAAAAAAAAAAAAAAA.secret"
      c1User [] 1000).2.2.2 (by simp)⟩

/-! Embedding of `acceptInvitations` (`src/vortex.ts` lines 196-318) and the
request objects it sends through `vortexApiRequest`. -/

/-- The `AcceptUser` type of `src/types.ts`: email or phone (or both) plus
an optional name. -/
structure AcceptUser where
  email : Option String := none
  phone : Option String := none
  name : Option String := none
deriving DecidableEq

/-- The legacy `InvitationTarget` of `src/types.ts` (`type` is one of
`email`, `phone`, `share`, `internal` there; any string here). -/
structure InvitationTarget where
  type : String
  value : String
deriving DecidableEq

/-- Body of an accept request: invitation ids plus the (normalized) user. -/
structure AcceptBody where
  invitationIds : List String
  user : AcceptUser
deriving DecidableEq

/-- An outbound API request as `vortexApiRequest` builds it (method, path,
query parameters, JSON body).  The constant headers are modelled separately
by `vortexRequestHeaders`. -/
structure ApiRequest where
  method : String
  path : String
  queryParams : List (String × String) := []
  body : Option AcceptBody := none
deriving DecidableEq

/-- JavaScript falsiness of an optional string: absent or empty. -/
def strFalsy : Option String → Bool
  | none => true
  | some s => s == ""

/-- The accept request `acceptInvitations` posts
(`POST /api/v1/invitations/accept` with `{invitationIds, user}`). -/
def acceptRequest (ids : List String) (u : AcceptUser) : ApiRequest :=
  { method := "POST", path := "/api/v1/invitations/accept", body := some ⟨ids, u⟩ }

/-- The three admissible second arguments of `acceptInvitations`; the source
discriminates them with `Array.isArray` and a `'type' in x && 'value' in x`
check, which this tagged union reproduces (an `AcceptUser` never carries
`type`/`value` fields). -/
inductive AcceptInput where
  | user (u : AcceptUser)
  | target (t : InvitationTarget)
  | targets (ts : List InvitationTarget)

/-- The legacy-target branch (`src/vortex.ts` lines 257-284): normalize
`email`/`phone` targets into an `AcceptUser`, fail on any other type
without sending anything, otherwise post one accept request.  Returns the
requests sent and the outcome; `send` models one `vortexApiRequest` call
(which may throw). -/
def acceptOneTarget (send : ApiRequest → Except VortexError Json) (ids : List String)
    (t : InvitationTarget) : List ApiRequest × Except VortexError Json :=
  if t.type = "email" then
    let req := acceptRequest ids { email := some t.value }
    ([req], send req)
  else if t.type = "phone" then
    let req := acceptRequest ids { phone := some t.value }
    ([req], send req)
  else ([], .error (.UnsupportedTargetType t.type))

/-- JavaScript truthiness of a JSON value — the `if (!lastResult)` test at
the end of the legacy-array loop: `null`, `false`, `0` and the empty
string are falsy; every array or object is truthy. -/
def jsTruthy : Json → Bool
  | .null => false
  | .str s => s != ""
  | .num n => n != 0
  | .bool b => b
  | .arr _ => true
  | .obj _ => true

/-- The legacy-array loop (`src/vortex.ts` lines 240-252): one sequential
accept call per target, keeping only the last result; an exception aborts
the loop.  The final `if (!lastResult) throw new Error('No targets
provided')` is a JavaScript truthiness test: it throws when the array was
empty (`lastResult` still `undefined`, here `none`) and ALSO when the last
call resolved to a falsy JSON value (`null`, `false`, `0`, `""`). -/
def acceptLoop (send : ApiRequest → Except VortexError Json) (ids : List String) :
    List InvitationTarget → Option Json → List ApiRequest × Except VortexError Json
  | [], none => ([], .error .NoTargetsProvided)
  | [], some r => ([], if jsTruthy r then .ok r else .error .NoTargetsProvided)
  | t :: ts, _ =>
    match acceptOneTarget send ids t with
    | (reqs, .error e) => (reqs, .error e)
    | (reqs, .ok r) =>
      let rest := acceptLoop send ids ts (some r)
      (reqs ++ rest.1, rest.2)

/-- `acceptInvitations` (`src/vortex.ts` lines 235-303): dispatch on the
shape of the second argument; the new-format branch validates that email or
phone is present (JavaScript-truthily) before posting. -/
def acceptInvitations (send : ApiRequest → Except VortexError Json) (ids : List String) :
    AcceptInput → List ApiRequest × Except VortexError Json
  | .targets ts => acceptLoop send ids ts none
  | .target t => acceptOneTarget send ids t
  | .user u =>
    if strFalsy u.email && strFalsy u.phone then ([], .error .MissingIdentity)
    else
      let req := acceptRequest ids u
      ([req], send req)

/-- Normalized user of an `email`/`phone` legacy target — the mapping the
spec requires the legacy shim to apply. -/
def normalizedUser (t : InvitationTarget) : AcceptUser :=
  if t.type = "email" then { email := some t.value } else { phone := some t.value }

/-- C3, counterexample: at the empty target value the claimed equivalence
fails — the legacy target `{type:"email", value:""}` posts one accept
request carrying `{email:""}`, while the subject identity `{email:""}` is
JavaScript-falsy, so the user-format call fails with `MissingIdentity` and
posts nothing. -/
theorem c3_empty_value_counterexample :
    acceptInvitations (fun _ => .ok (Json.obj [])) ["i1"] (.target ⟨"email", ""⟩) =
      ([acceptRequest ["i1"] { email := some "" }], .ok (Json.obj [])) ∧
    acceptInvitations (fun _ => .ok (Json.obj [])) ["i1"] (.user { email := some "" }) =
      ([], .error .MissingIdentity) :=
  ⟨rfl, rfl⟩

/-- C3 as amended: for a non-empty value `v`, accepting with the legacy
target `{type:"email", value:v}` sends exactly the same request (same
outbound body) with the same result as accepting with the subject identity
`{email:v}`, and likewise `{type:"phone", value:v}` matches `{phone:v}`;
a legacy target of any other type fails with `UnsupportedTargetType`
without sending a request.  (At `v = ""` the two calls differ, see the
counterexample.) -/
theorem c3_legacy_target_equivalence (send : ApiRequest → Except VortexError Json)
    (ids : List String) (v : String) :
    (v ≠ "" →
      acceptInvitations send ids (.target ⟨"email", v⟩) =
        acceptInvitations send ids (.user { email := some v }) ∧
      acceptInvitations send ids (.target ⟨"phone", v⟩) =
        acceptInvitations send ids (.user { phone := some v })) ∧
    (∀ ty, ty ≠ "email" → ty ≠ "phone" →
      acceptInvitations send ids (.target ⟨ty, v⟩) =
        ([], .error (.UnsupportedTargetType ty))) := by
  constructor
  · intro hv
    have hb : (v == "") = false := by simpa using hv
    constructor
    · simp [acceptInvitations, acceptOneTarget, strFalsy, hb]
    · simp [acceptInvitations, acceptOneTarget, strFalsy, hb]
  · intro ty h1 h2
    simp [acceptInvitations, acceptOneTarget, h1, h2]

/-- Closed corollary of `c3_legacy_target_equivalence` at
`v = "a@b.com"` and the unsupported type `share`. -/
theorem c3_legacy_target_equivalence_witness :
    acceptInvitations (fun _ => .ok (Json.obj [])) ["i1"] (.target ⟨"email", "a@b.com"⟩) =
      acceptInvitations (fun _ => .ok (Json.obj [])) ["i1"] (.user { email := some "a@b.com" }) ∧
    acceptInvitations (fun _ => .ok (Json.obj [])) ["i1"] (.target ⟨"share", "a@b.com"⟩) =
      ([], .error (.UnsupportedTargetType "share")) :=
  ⟨((c3_legacy_target_equivalence (fun _ => .ok (Json.obj [])) ["i1"] "a@b.com").1
      (by decide)).1,
    (c3_legacy_target_equivalence (fun _ => .ok (Json.obj [])) ["i1"] "a@b.com").2 "share"
      (by decide) (by decide)⟩

/-- C4, counterexample: the claim quantifies over every non-empty legacy
target array, but a one-element array with a `share` target issues zero
(not one) underlying calls and fails with `UnsupportedTargetType` instead
of returning a last result. -/
theorem c4_unsupported_in_array_counterexample :
    acceptInvitations (fun _ => .ok (Json.obj [])) ["i1"] (.targets [⟨"share", "s"⟩]) =
      ([], .error (.UnsupportedTargetType "share")) :=
  rfl

/-- An `email`/`phone` legacy target makes exactly one accept call with its
normalized user. -/
theorem acceptOneTarget_ok (send : ApiRequest → Json) (ids : List String)
    (t : InvitationTarget) (h : t.type = "email" ∨ t.type = "phone") :
    acceptOneTarget (fun r => .ok (send r)) ids t =
      ([acceptRequest ids (normalizedUser t)],
        .ok (send (acceptRequest ids (normalizedUser t)))) := by
  rcases h with h | h
  · simp [acceptOneTarget, normalizedUser, h]
  · have hne : t.type ≠ "email" := by rw [h]; decide
    simp [acceptOneTarget, normalizedUser, h, hne]

/-- One successful step of the legacy-array loop. -/
theorem acceptLoop_cons_ok (send : ApiRequest → Except VortexError Json)
    (ids : List String) (t : InvitationTarget) (ts : List InvitationTarget)
    (prev : Option Json) (reqs : List ApiRequest) (r : Json)
    (h : acceptOneTarget send ids t = (reqs, .ok r)) :
    acceptLoop send ids (t :: ts) prev =
      (reqs ++ (acceptLoop send ids ts (some r)).1, (acceptLoop send ids ts (some r)).2) := by
  simp only [acceptLoop, h]

/-- Helper for C4: over `email`/`phone` targets with an always-succeeding
transport, the loop sends one request per target in input order, and ends
with the truthiness test on the response to the last one — whatever result
was previously accumulated. -/
theorem acceptLoop_last (send : ApiRequest → Json) (ids : List String) :
    ∀ (ts : List InvitationTarget) (prev : Option Json) (tl : InvitationTarget),
      (∀ t ∈ ts, t.type = "email" ∨ t.type = "phone") → ts.getLast? = some tl →
      acceptLoop (fun r => .ok (send r)) ids ts prev =
        (ts.map fun t => acceptRequest ids (normalizedUser t),
          if jsTruthy (send (acceptRequest ids (normalizedUser tl))) then
            .ok (send (acceptRequest ids (normalizedUser tl)))
          else .error .NoTargetsProvided)
  | [], _, _, _, hl => by simp at hl
  | [t], prev, tl, hty, hl => by
    have hlt : t = tl := by simpa using hl
    subst hlt
    rw [acceptLoop_cons_ok _ _ _ _ _ _ _ (acceptOneTarget_ok send ids t (hty t (by simp)))]
    simp [acceptLoop]
  | t :: t2 :: ts, prev, tl, hty, hl => by
    rw [List.getLast?_cons_cons] at hl
    have hty' : ∀ x ∈ t2 :: ts, x.type = "email" ∨ x.type = "phone" :=
      fun x hx => hty x (by simp [hx])
    have ih := acceptLoop_last send ids (t2 :: ts)
      (some (send (acceptRequest ids (normalizedUser t)))) tl hty' hl
    rw [acceptLoop_cons_ok _ _ _ _ _ _ _ (acceptOneTarget_ok send ids t (hty t (by simp))), ih]
    simp

/-- C4 as amended: for the empty legacy array, `acceptInvitations` fails
with `NoTargetsProvided` without issuing any call; for a non-empty array
all of whose targets are of type `email` or `phone`, it issues exactly one
underlying accept call per target, sequentially in input order, and
returns only the response to the last one when that response is
JavaScript-truthy — a falsy last response (`null`, `false`, `0`, `""`)
instead makes the closing `if (!lastResult)` test throw
`NoTargetsProvided` even though all the calls were issued.  (An array
containing any other target type aborts early instead, see the
counterexample.) -/
theorem c4_sequential_accept (send : ApiRequest → Json) (ids : List String) :
    acceptInvitations (fun r => .ok (send r)) ids (.targets []) =
      ([], .error .NoTargetsProvided) ∧
    (∀ (ts : List InvitationTarget) (tl : InvitationTarget),
      (∀ t ∈ ts, t.type = "email" ∨ t.type = "phone") → ts.getLast? = some tl →
      acceptInvitations (fun r => .ok (send r)) ids (.targets ts) =
        (ts.map fun t => acceptRequest ids (normalizedUser t),
          if jsTruthy (send (acceptRequest ids (normalizedUser tl))) then
            .ok (send (acceptRequest ids (normalizedUser tl)))
          else .error .NoTargetsProvided)) :=
  ⟨rfl, fun ts tl hty hl => acceptLoop_last send ids ts none tl hty hl⟩

/-- Closed corollary of `c4_sequential_accept`: a two-target legacy array
issues exactly two calls, in order, and returns the second (truthy)
response; with a transport whose responses parse to the falsy `0`, the
same two calls are issued but the call fails with `NoTargetsProvided`. -/
theorem c4_sequential_accept_witness :
    acceptInvitations (fun r => .ok (Json.str r.path)) ["i1"]
        (.targets [⟨"email", "a@b.com"⟩, ⟨"phone", "555"⟩]) =
      ([acceptRequest ["i1"] { email := some "a@b.com" },
          acceptRequest ["i1"] { phone := some "555" }],
        .ok (Json.str "/api/v1/invitations/accept")) ∧
    acceptInvitations (fun _ => .ok (Json.num 0)) ["i1"]
        (.targets [⟨"email", "a@b.com"⟩, ⟨"phone", "555"⟩]) =
      ([acceptRequest ["i1"] { email := some "a@b.com" },
          acceptRequest ["i1"] { phone := some "555" }],
        .error .NoTargetsProvided) := by
  constructor
  · have h := (c4_sequential_accept (fun r => Json.str r.path) ["i1"]).2
      [⟨"email", "a@b.com"⟩, ⟨"phone", "555"⟩] ⟨"phone", "555"⟩
      (by decide) (by decide)
    simpa [normalizedUser, acceptRequest, jsTruthy] using h
  · have h := (c4_sequential_accept (fun _ => Json.num 0) ["i1"]).2
      [⟨"email", "a@b.com"⟩, ⟨"phone", "555"⟩] ⟨"phone", "555"⟩
      (by decide) (by decide)
    simpa [normalizedUser, acceptRequest, jsTruthy] using h

/-! Embedding of the shared request helper `vortexApiRequest`
(`src/vortex.ts` lines 114-166) and the two list operations that project
its result (C5, C6, C9, C10). -/

/-- The parts of a `fetch` response the helper inspects: the status (the
`ok` flag of `fetch` is `200 ≤ status < 300`), the status text, the
`content-length` and `content-type` headers (absent = `none`) and the body
text. -/
structure HttpResponse where
  status : Nat
  statusText : String
  contentLength : Option String
  contentType : Option String
  bodyText : String

/-- Boolean list-prefix test. -/
def isPrefixList : List Char → List Char → Bool
  | [], _ => true
  | _ :: _, [] => false
  | a :: as, b :: bs => a == b && isPrefixList as bs

/-- Boolean substring test (`String.prototype.includes` on char lists). -/
def isInfixList (pat : List Char) : List Char → Bool
  | [] => isPrefixList pat []
  | b :: bs => isPrefixList pat (b :: bs) || isInfixList pat bs

/-- `contentType?.includes('application/json')` with an optional chain:
`false` when the header is absent. -/
def ctIncludesJson : Option String → Bool
  | none => false
  | some s => isInfixList "application/json".data s.data

/-- JavaScript whitespace (the ASCII part; the helper only trims). -/
def isWhite (c : Char) : Bool :=
  c.toNat = 9 || c.toNat = 10 || c.toNat = 11 || c.toNat = 12 || c.toNat = 13 || c.toNat = 32

/-- `String.prototype.trim`. -/
def trimStr (s : String) : String :=
  ⟨((s.data.dropWhile isWhite).reverse.dropWhile isWhite).reverse⟩

/-- Response handling of `vortexApiRequest` (`src/vortex.ts` lines
137-165): a non-2xx status throws `ApiRequestFailed` carrying status,
status text and the raw body, without touching `JSON.parse`; on success an
empty-ish body (`content-length: 0`, or a non-JSON content type with no
length, or whitespace-only text) yields `{}`, an unparseable body also
degrades to `{}`, and otherwise the parsed JSON is returned.  `parse`
stands for `JSON.parse` (`none` = parse exception). -/
def handleResponse (parse : String → Option Json) (r : HttpResponse) :
    Except VortexError Json :=
  if ¬ (200 ≤ r.status ∧ r.status < 300) then
    .error (.ApiRequestFailed r.status r.statusText r.bodyText)
  else if r.contentLength == some "0" ||
      (!ctIncludesJson r.contentType && strFalsy r.contentLength) then .ok (.obj [])
  else if trimStr r.bodyText = "" then .ok (.obj [])
  else
    match parse r.bodyText with
    | some v => .ok v
    | none => .ok (.obj [])

/-- The headers `vortexApiRequest` attaches to every request
(`src/vortex.ts` lines 129-136): the JSON content type and the raw API key
— nothing else. -/
def vortexRequestHeaders (apiKey : String) : List (String × String) :=
  [("Content-Type", "application/json"), ("x-api-key", apiKey)]

/-- JavaScript property access on a parsed JSON value: a field of an
object, `undefined` (`none`) otherwise. -/
def jsonField (j : Json) (k : String) : Option Json :=
  match j with
  | .obj kvs => kvs.lookup k
  | _ => none

/-- `getInvitationsByTarget` (`src/vortex.ts` lines 168-181): a GET on
`/api/v1/invitations` with target query parameters, projecting the
`invitations` field of the parsed response with no default.  `fetchO`
models the transport: the response `fetch` yields for a request. -/
def getInvitationsByTarget (parse : String → Option Json)
    (fetchO : ApiRequest → HttpResponse) (targetType targetValue : String) :
    Except VortexError (Option Json) :=
  (handleResponse parse (fetchO
    { method := "GET", path := "/api/v1/invitations",
      queryParams := [("targetType", targetType), ("targetValue", targetValue)] })).map
    (fun j => jsonField j "invitations")

/-- `getInvitationsByGroup` (`src/vortex.ts` lines 327-333): a GET on the
by-group path, projecting the `invitations` field with no default. -/
def getInvitationsByGroup (parse : String → Option Json)
    (fetchO : ApiRequest → HttpResponse) (groupType groupId : String) :
    Except VortexError (Option Json) :=
  (handleResponse parse (fetchO
    { method := "GET",
      path := "/api/v1/invitations/by-group/" ++ groupType ++ "/" ++ groupId })).map
    (fun j => jsonField j "invitations")

/-- The success bodies the helper degrades to the empty object: zero
content length, non-JSON content type with no length, whitespace-only
text, or text `JSON.parse` rejects. -/
abbrev EmptyBodied (parse : String → Option Json) (r : HttpResponse) : Prop :=
  r.contentLength = some "0" ∨
    (ctIncludesJson r.contentType = false ∧ r.contentLength = none) ∨
    trimStr r.bodyText = "" ∨ parse r.bodyText = none

/-- A 2xx response with an empty-ish or unparseable body yields `{}`. -/
theorem handleResponse_empty (parse : String → Option Json) (r : HttpResponse)
    (hok : 200 ≤ r.status ∧ r.status < 300) (h : EmptyBodied parse r) :
    handleResponse parse r = .ok (.obj []) := by
  unfold handleResponse
  rw [if_neg (not_not_intro hok)]
  rcases h with h | ⟨hct, hcl⟩ | h | h
  · simp [h]
  · simp [hct, hcl, strFalsy]
  · by_cases h2 : (r.contentLength == some "0" ||
        (!ctIncludesJson r.contentType && strFalsy r.contentLength)) = true
    · rw [if_pos h2]
    · rw [if_neg h2, if_pos h]
  · by_cases h2 : (r.contentLength == some "0" ||
        (!ctIncludesJson r.contentType && strFalsy r.contentLength)) = true
    · rw [if_pos h2]
    · rw [if_neg h2]
      by_cases h3 : trimStr r.bodyText = ""
      · rw [if_pos h3]
      · rw [if_neg h3, h]

/-- C5: on every response with a non-2xx status, the helper fails with
`ApiRequestFailed` carrying the status code, the status text and the raw
body text — and the result does not depend on the `JSON.parse` oracle,
which is never consulted: the body is not parsed. -/
theorem c5_non_success_error (parse : String → Option Json) (r : HttpResponse)
    (h : ¬ (200 ≤ r.status ∧ r.status < 300)) :
    handleResponse parse r = .error (.ApiRequestFailed r.status r.statusText r.bodyText) := by
  unfold handleResponse
  rw [if_pos h]

/-- Closed corollary of `c5_non_success_error`: a 500 with a non-JSON body
surfaces the raw body in the error, even under a parse oracle that would
reject every body. -/
theorem c5_non_success_error_witness :
    handleResponse (fun _ => none)
      { status := 500, statusText := "Internal Server Error", contentLength := none,
        contentType := some "text/html", bodyText := "<html>boom</html>" } =
      .error (.ApiRequestFailed 500 "Internal Server Error" "<html>boom</html>") :=
  c5_non_success_error (fun _ => none) _ (by decide)

/-- C6: on every 2xx response whose body is empty (`content-length: 0`, or
a non-JSON content type with no length, or whitespace-only text) or whose
non-empty body fails JSON parsing, the helper returns the empty object —
never an error and never an absent value. -/
theorem c6_empty_body_degrades (parse : String → Option Json) (r : HttpResponse)
    (hok : 200 ≤ r.status ∧ r.status < 300) (h : EmptyBodied parse r) :
    handleResponse parse r = .ok (.obj []) :=
  handleResponse_empty parse r hok h

/-- Response used by the C6 and C10 witnesses: a 200 with
`content-length: 0`. -/
def zeroLenResp : HttpResponse :=
  { status := 200, statusText := "OK", contentLength := some "0",
    contentType := some "application/json", bodyText := "" }

/-- Closed corollary of `c6_empty_body_degrades`: a 200 with
`content-length: 0` yields `{}`. -/
theorem c6_empty_body_degrades_witness :
    handleResponse (fun _ => none) zeroLenResp = .ok (.obj []) :=
  c6_empty_body_degrades (fun _ => none) zeroLenResp (by decide) (.inl rfl)

/-- C9: the shipped request helper sends only the content-type and API-key
headers; the SDK-identification headers required by the spec and by the
repository's own test (`x-vortex-sdk-name: vortex-node-sdk` and
`x-vortex-sdk-version`, see `__tests__/sdkHeaders.spec.ts`) are absent
from every request — evaluated here at the test's own API key. -/
theorem c9_sdk_headers_missing :
    vortexRequestHeaders "VRTX.dGVzdGlk.dGVzdGtleQ" =
      [("Content-Type", "application/json"), ("x-api-key", "VRTX.dGVzdGlk.dGVzdGtleQ")] ∧
    List.lookup "x-vortex-sdk-name" (vortexRequestHeaders "VRTX.dGVzdGlk.dGVzdGtleQ") =
      none ∧
    List.lookup "x-vortex-sdk-version" (vortexRequestHeaders "VRTX.dGVzdGlk.dGVzdGtleQ") =
      none := by
  refine ⟨rfl, ?_, ?_⟩ <;> simp [vortexRequestHeaders, List.lookup]

/-- C10: whenever the response degrades to the empty object (empty or
unparseable 2xx body), `getInvitationsByTarget` and
`getInvitationsByGroup` return an absent (`undefined`) invitations value,
not an empty list: they project the `invitations` field with no
default. -/
theorem c10_projection_undefined (parse : String → Option Json)
    (fetchO : ApiRequest → HttpResponse) (targetType targetValue groupType groupId : String)
    (h1 : ∀ req, 200 ≤ (fetchO req).status ∧ (fetchO req).status < 300)
    (h2 : ∀ req, EmptyBodied parse (fetchO req)) :
    getInvitationsByTarget parse fetchO targetType targetValue = .ok none ∧
    getInvitationsByGroup parse fetchO groupType groupId = .ok none := by
  constructor
  · unfold getInvitationsByTarget
    rw [handleResponse_empty _ _ (h1 _) (h2 _)]
    rfl
  · unfold getInvitationsByGroup
    rw [handleResponse_empty _ _ (h1 _) (h2 _)]
    rfl

/-- Closed corollary of `c10_projection_undefined`: a transport always
answering 200 with `content-length: 0` makes both list operations return
an absent value. -/
theorem c10_projection_undefined_witness :
    getInvitationsByTarget (fun _ => none) (fun _ => zeroLenResp) "email" "a@b.com" =
      .ok none ∧
    getInvitationsByGroup (fun _ => none) (fun _ => zeroLenResp) "team" "t1" = .ok none :=
  c10_projection_undefined (fun _ => none) (fun _ => zeroLenResp) "email" "a@b.com"
    "team" "t1"
    (fun _ => (show 200 ≤ zeroLenResp.status ∧ zeroLenResp.status < 300 by decide))
    (fun _ => .inl rfl)

end Vortex
